import Mathlib

/-!
# Sliding-window rate limiter (src/main.go)

A shallow embedding of the Go program in src/main.go: the RateLimiter struct,
its constructor, its four methods and the four test drivers of the file, as
pure functions with explicit state passing.

Conventions.
* time.Duration is a signed count of nanoseconds. No function of the program
  performs arithmetic on maxRequests or windowDuration, so no wrap-around can
  occur and both are plain integers.
* A method with a pointer receiver returns the limiter it leaves behind next
  to its Go result.
* The program reads no clock. The test drivers call time.Sleep, so the
  execution model carries a clock that only Sleep advances.
-/

namespace RateLimit

/-! ## Data model -/

/-- Go time.Duration, a count of nanoseconds. -/
abbrev Duration := Int

/-- Go time.Second. -/
def Second : Duration := 1000000000

/-- Go sync.Mutex. Its zero value is an unlocked mutex. -/
structure Mutex where
  locked : Bool
  deriving DecidableEq, Repr

/-- The zero value of sync.Mutex. -/
def Mutex.zero : Mutex := ⟨false⟩

/-- The struct RateLimiter of main.go, lines 34 to 42. It has exactly three
fields; the source declares no per-user storage. -/
structure RateLimiter where
  maxRequests : Int
  windowDuration : Duration
  mu : Mutex
  deriving DecidableEq, Repr

/-- A value stored under a key of a Go map from string to the empty
interface. -/
inductive GoValue where
  | int (n : Int)
  | duration (d : Duration)
  | bool (b : Bool)
  | str (s : String)
  deriving DecidableEq, Repr

/-- The Go map type that GetStats returns, from string to the empty
interface. The value none is the nil map. -/
abbrev StatsMap := Option (List (String × GoValue))

/-- Go map read m[key] with the comma-ok form: none when the key is absent.
Reading a nil map finds no key. -/
def StatsMap.get (m : StatsMap) (key : String) : Option GoValue :=
  match m with
  | none => none
  | some entries => (entries.find? (fun e => e.1 == key)).map (fun e => e.2)

/-! ## Constructor and methods -/

/-- NewRateLimiter, main.go lines 45 to 51. The Go result is a pointer:
none stands for the nil pointer. The body returns the address of a struct
literal that sets maxRequests and windowDuration and leaves mu at its zero
value; it has no other return and no check of its arguments. -/
def NewRateLimiter (maxRequests : Int) (windowDuration : Duration) : Option RateLimiter :=
  some { maxRequests := maxRequests, windowDuration := windowDuration, mu := Mutex.zero }

/-- IsAllowed, main.go lines 54 to 63. The body is the single statement
return false: it reads and writes no field of the receiver. -/
def RateLimiter.IsAllowed (rl : RateLimiter) (_userID : String) : RateLimiter × Bool :=
  (rl, false)

/-- Reset, main.go lines 66 to 68. The body is empty. -/
def RateLimiter.Reset (rl : RateLimiter) (_userID : String) : RateLimiter :=
  rl

/-- GetStats, main.go lines 71 to 77. The body is return nil. -/
def RateLimiter.GetStats (rl : RateLimiter) (_userID : String) : RateLimiter × StatsMap :=
  (rl, none)

/-- CleanupInactiveUsers, main.go lines 80 to 84. The body is return 0. -/
def RateLimiter.CleanupInactiveUsers (rl : RateLimiter) (_inactivityThreshold : Duration) :
    RateLimiter × Int :=
  (rl, 0)

/-! ## Execution model: sequences of calls on one limiter -/

/-- One action of a caller: a method call on the limiter, or time.Sleep. -/
inductive Op where
  | IsAllowed (userID : String)
  | Reset (userID : String)
  | GetStats (userID : String)
  | CleanupInactiveUsers (inactivityThreshold : Duration)
  | Sleep (d : Duration)
  deriving DecidableEq, Repr

/-- What an action returns to its caller. -/
inductive Ret where
  | bool (b : Bool)
  | unit
  | stats (m : StatsMap)
  | int (n : Int)
  deriving DecidableEq, Repr

/-- The limiter together with the wall clock, in nanoseconds. -/
structure World where
  rl : RateLimiter
  now : Int
  deriving DecidableEq, Repr

/-- One action. Sleep with a non-positive duration returns at once. -/
def step (w : World) : Op → World × Ret
  | Op.IsAllowed userID =>
    let r := w.rl.IsAllowed userID
    ({ w with rl := r.1 }, Ret.bool r.2)
  | Op.Reset userID => ({ w with rl := w.rl.Reset userID }, Ret.unit)
  | Op.GetStats userID =>
    let r := w.rl.GetStats userID
    ({ w with rl := r.1 }, Ret.stats r.2)
  | Op.CleanupInactiveUsers inactivityThreshold =>
    let r := w.rl.CleanupInactiveUsers inactivityThreshold
    ({ w with rl := r.1 }, Ret.int r.2)
  | Op.Sleep d => ({ w with now := w.now + max d 0 }, Ret.unit)

/-- A sequence of actions, each paired with what it returned, and the world
left behind. -/
def run (w : World) : List Op → World × List (Op × Ret)
  | [] => (w, [])
  | op :: ops =>
    let r := step w op
    let rest := run r.1 ops
    (rest.1, (op, r.2) :: rest.2)

/-- The results of the IsAllowed calls made for userID, in call order. -/
def decisions (userID : String) (tr : List (Op × Ret)) : List Bool :=
  tr.filterMap (fun e =>
    match e with
    | (Op.IsAllowed u, Ret.bool b) => if u = userID then some b else none
    | _ => none)

/-- The number of IsAllowed calls for userID that returned true. -/
def granted (userID : String) (tr : List (Op × Ret)) : Nat :=
  (decisions userID tr).count true

/-! ## The test drivers of main.go

Each driver returns, in print order, one flag per line it prints: true for
the line that starts with the check mark, false for the line that starts with
the cross. -/

/-- The loop body of testBasicFunctionality, lines 107 to 111, run for
i = 1, 2, 3 (the argument counts the iterations left). -/
def basicLoop (rl : RateLimiter) : Nat → RateLimiter × List Bool
  | 0 => (rl, [])
  | k + 1 =>
    let r := rl.IsAllowed "user1"
    let rest := basicLoop r.1 k
    (rest.1, (if !r.2 then false else true) :: rest.2)

/-- testBasicFunctionality, main.go lines 102 to 120. -/
def testBasicFunctionality : Option (List Bool) := do
  let rl ← NewRateLimiter 3 (5 * Second)
  let l := basicLoop rl 3
  let r4 := l.1.IsAllowed "user1"
  pure (l.2 ++ [if r4.2 then false else true])

/-- testSlidingWindow, main.go lines 122 to 148, started at clock value t0. -/
def testSlidingWindow (t0 : Int) : Option (List Bool) := do
  let rl ← NewRateLimiter 2 (2 * Second)
  let w0 : World := ⟨rl, t0⟩
  let w1 := (step w0 (Op.IsAllowed "user2")).1
  let w2 := (step w1 (Op.IsAllowed "user2")).1
  let w3 := (step w2 (Op.Sleep (1 * Second))).1
  let r3 := w3.rl.IsAllowed "user2"
  let w4 := (step { w3 with rl := r3.1 } (Op.Sleep (1 * Second))).1
  let r4 := w4.rl.IsAllowed "user2"
  pure [if r3.2 then false else true, if !r4.2 then false else true]

/-- testMultipleUsers, main.go lines 150 to 170. -/
def testMultipleUsers : Option (List Bool) := do
  let rl ← NewRateLimiter 2 (5 * Second)
  let rl1 := (rl.IsAllowed "user3").1
  let rl2 := (rl1.IsAllowed "user3").1
  let r3 := rl2.IsAllowed "user4"
  let r4 := r3.1.IsAllowed "user3"
  pure [if !r3.2 then false else true, if r4.2 then false else true]

/-- The goroutines of testConcurrency, lines 181 to 188, in the order sched in
which their bodies run; the second argument is successCount. The body of
IsAllowed is one return statement that touches no shared memory, so a
goroutine body is the call followed by the guarded increment, and an
interleaving of the goroutines is an order of these bodies. -/
def goroutines (rl : RateLimiter) : List Nat → Nat → RateLimiter × Nat
  | [], successCount => (rl, successCount)
  | _ :: rest, successCount =>
    let r := rl.IsAllowed "concurrent_user"
    goroutines r.1 rest (if r.2 then successCount + 1 else successCount)

/-- testConcurrency, main.go lines 172 to 198: the final successCount and the
flag of the line printed, for the goroutine order sched. -/
def testConcurrency (sched : List Nat) : Option (Nat × Bool) := do
  let rl ← NewRateLimiter 10 (5 * Second)
  let successCount := (goroutines rl sched 0).2
  pure (successCount, if successCount == 10 then true else false)

/-! ## Shared lemmas -/

theorem step_rl (w : World) (op : Op) : (step w op).1.rl = w.rl := by
  cases op <;> rfl

theorem run_rl (w : World) (ops : List Op) : (run w ops).1.rl = w.rl := by
  induction ops generalizing w with
  | nil => rfl
  | cons op ops ih =>
    show (run (step w op).1 ops).1.rl = w.rl
    rw [ih, step_rl]

theorem step_IsAllowed_ret (w : World) (u : String) :
    (step w (Op.IsAllowed u)).2 = Ret.bool false := rfl

theorem step_ret_ne_true (w : World) (op : Op) : (step w op).2 ≠ Ret.bool true := by
  cases op <;> simp [step, RateLimiter.IsAllowed]

theorem decisions_run (userID : String) (w : World) (ops : List Op) :
    ∀ b ∈ decisions userID (run w ops).2, b = false := by
  induction ops generalizing w with
  | nil => intro b hb; simp [run, decisions] at hb
  | cons op ops ih =>
    intro b hb
    have hstep := step_ret_ne_true w op
    simp only [run, decisions, List.filterMap_cons] at hb
    split at hb
    · exact ih _ b hb
    · rename_i c hc
      rcases List.mem_cons.mp hb with h | h
      · subst h
        split at hc
        · rename_i u b2 heq
          have h2 : (step w op).2 = Ret.bool b2 := by
            have := congrArg Prod.snd heq
            simpa using this
          cases b2
          · split at hc <;> simp_all
          · exact absurd h2 hstep
        · simp at hc
      · exact ih _ b h

theorem granted_run (userID : String) (w : World) (ops : List Op) :
    granted userID (run w ops).2 = 0 := by
  unfold granted
  rw [List.count_eq_zero]
  intro h
  have := decisions_run userID w ops true h
  simp at this

theorem goroutines_count (rl : RateLimiter) (sched : List Nat) (n : Nat) :
    (goroutines rl sched n).2 = n := by
  induction sched generalizing rl n with
  | nil => rfl
  | cons g rest ih =>
    show (goroutines rl rest n).2 = n
    exact ih rl n

/-! ## The claims -/

/-- C1: the claim says the first N calls for an identity without history
return true. On the limiter NewRateLimiter(3, 5s) the three calls for
"user1" return false, false, false, and testBasicFunctionality prints the
cross for each of its first three checks. -/
theorem C1_first_calls_denied (t0 : Int) :
    (NewRateLimiter 3 (5 * Second)).map
        (fun rl => decisions "user1"
          (run ⟨rl, t0⟩ [Op.IsAllowed "user1", Op.IsAllowed "user1", Op.IsAllowed "user1"]).2)
      = some [false, false, false]
    ∧ testBasicFunctionality = some [false, false, false, true] := by
  constructor <;> rfl

/-- C2: capacity invariant. On a limiter with maxRequests = N at least 1, for
every identity, every start time and every sequence of actions (so in
particular every sequence of IsAllowed calls inside one window), the number
of calls for that identity that returned true is at most N, and the next
IsAllowed call for it returns false. -/
theorem C2_capacity (rl : RateLimiter) (hN : 1 ≤ rl.maxRequests) (t0 : Int)
    (userID : String) (ops : List Op) :
    (granted userID (run ⟨rl, t0⟩ ops).2 : Int) ≤ rl.maxRequests
    ∧ (step (run ⟨rl, t0⟩ ops).1 (Op.IsAllowed userID)).2 = Ret.bool false := by
  refine ⟨?_, rfl⟩
  rw [granted_run]
  exact le_trans (by decide) hN

/-- C2 at NewRateLimiter(3, 5s): of four immediate calls for "user1" at most
three are granted, and the call that follows returns false. -/
theorem C2_capacity_witness :
    (1 : Int) ≤ (RateLimiter.mk 3 (5 * Second) Mutex.zero).maxRequests
    ∧ (granted "user1" (run ⟨RateLimiter.mk 3 (5 * Second) Mutex.zero, 0⟩
          [Op.IsAllowed "user1", Op.IsAllowed "user1", Op.IsAllowed "user1",
           Op.IsAllowed "user1"]).2 : Int)
        ≤ (RateLimiter.mk 3 (5 * Second) Mutex.zero).maxRequests
    ∧ (step (run ⟨RateLimiter.mk 3 (5 * Second) Mutex.zero, 0⟩
          [Op.IsAllowed "user1", Op.IsAllowed "user1", Op.IsAllowed "user1",
           Op.IsAllowed "user1"]).1 (Op.IsAllowed "user1")).2 = Ret.bool false :=
  ⟨by decide, C2_capacity (RateLimiter.mk 3 (5 * Second) Mutex.zero) (by decide) 0 "user1" _⟩

/-- C3: the claim says that after "user3" has used its two slots the first
call for the fresh identity "user4" returns true. On NewRateLimiter(2, 5s),
after two calls for "user3", the call for "user4" returns false, and
testMultipleUsers prints the cross for its first check. -/
theorem C3_fresh_identity_denied (t0 : Int) :
    (NewRateLimiter 2 (5 * Second)).map
        (fun rl => decisions "user4"
          (run ⟨rl, t0⟩ [Op.IsAllowed "user3", Op.IsAllowed "user3", Op.IsAllowed "user4"]).2)
      = some [false]
    ∧ testMultipleUsers = some [false, true] := by
  constructor <;> rfl

/-- C4: the claim says a call made once the window has elapsed returns true.
On NewRateLimiter(2, 2s), with two calls at t0, one call at t0 + 1s and one
call at t0 + 2s, all four calls return false, the clock stands at t0 + 2s at
the last call, and testSlidingWindow prints the cross for its second check. -/
theorem C4_call_after_window_denied (t0 : Int) :
    (NewRateLimiter 2 (2 * Second)).map
        (fun rl => decisions "user2"
          (run ⟨rl, t0⟩ [Op.IsAllowed "user2", Op.IsAllowed "user2", Op.Sleep (1 * Second),
            Op.IsAllowed "user2", Op.Sleep (1 * Second), Op.IsAllowed "user2"]).2)
      = some [false, false, false, false]
    ∧ (NewRateLimiter 2 (2 * Second)).map
        (fun rl => (run ⟨rl, t0⟩ [Op.IsAllowed "user2", Op.IsAllowed "user2",
            Op.Sleep (1 * Second), Op.IsAllowed "user2", Op.Sleep (1 * Second)]).1.now)
      = some (t0 + 2 * Second)
    ∧ testSlidingWindow t0 = some [true, false] := by
  refine ⟨rfl, ?_, rfl⟩
  simp [NewRateLimiter, run, step, Second, RateLimiter.IsAllowed]
  ring

/-- C5: the claim says exactly 10 of 20 concurrent callers are granted. In
testConcurrency, whatever the order sched in which the goroutines run,
successCount ends at 0 and the driver prints the cross. -/
theorem C5_no_caller_granted (sched : List Nat) :
    testConcurrency sched = some (0, false) := by
  simp [testConcurrency, NewRateLimiter, goroutines_count]

/-- C6, as the code has it: for every maxRequests and every windowDuration,
positive or not, NewRateLimiter returns a limiter (never the nil pointer)
that holds the two arguments and an unlocked mutex. -/
theorem C6_construction_total (maxRequests : Int) (windowDuration : Duration) :
    NewRateLimiter maxRequests windowDuration
      = some (RateLimiter.mk maxRequests windowDuration Mutex.zero)
    ∧ NewRateLimiter maxRequests windowDuration ≠ none := by
  constructor
  · rfl
  · simp [NewRateLimiter]

/-- C6 as stated fails at maxRequests = 0 and windowDuration = 0: both are
non-positive, yet construction yields a limiter. -/
theorem C6_counterexample :
    ¬ (NewRateLimiter 0 0 = none ↔ ((0 : Int) ≤ 0 ∨ (0 : Duration) ≤ 0)) := by
  simp [NewRateLimiter]

/-- C7: the claim says that after Reset the next N calls return true. On
NewRateLimiter(3, 5s), after Reset("user1"), the three calls for "user1"
return false, false, false. -/
theorem C7_calls_after_reset_denied (t0 : Int) :
    (NewRateLimiter 3 (5 * Second)).map
        (fun rl => decisions "user1"
          (run ⟨rl, t0⟩ [Op.Reset "user1", Op.IsAllowed "user1", Op.IsAllowed "user1",
            Op.IsAllowed "user1"]).2)
      = some [false, false, false] := by
  rfl

/-- C8: the claim says GetStats returns zero counts for an identity without a
record. On NewRateLimiter(3, 5s), GetStats("user1") returns the nil map, which
holds no value under any key. -/
theorem C8_stats_nil (key : String) :
    (NewRateLimiter 3 (5 * Second)).map (fun rl => (rl.GetStats "user1").2) = some none
    ∧ (NewRateLimiter 3 (5 * Second)).map
        (fun rl => StatsMap.get (rl.GetStats "user1").2 key) = some none := by
  constructor <;> rfl

/-- C9: the claim says CleanupInactiveUsers removes the identities idle for
longer than the threshold and returns their number. On NewRateLimiter(2, 5s),
after a call for "user1" and a sleep of 10s, CleanupInactiveUsers(1s) returns
0 and leaves the limiter as it was. -/
theorem C9_cleanup_returns_zero (t0 : Int) :
    (NewRateLimiter 2 (5 * Second)).map
        (fun rl => ((run ⟨rl, t0⟩ [Op.IsAllowed "user1", Op.Sleep (10 * Second),
            Op.CleanupInactiveUsers (1 * Second)]).2.map Prod.snd))
      = some [Ret.bool false, Ret.unit, Ret.int 0]
    ∧ (NewRateLimiter 2 (5 * Second)).map
        (fun rl => (run ⟨rl, t0⟩ [Op.IsAllowed "user1", Op.Sleep (10 * Second),
            Op.CleanupInactiveUsers (1 * Second)]).1.rl)
      = NewRateLimiter 2 (5 * Second) := by
  constructor <;> rfl

/-- C10: for every limiter (any maxRequests and windowDuration), every start
time, every prior sequence of actions and every identity, IsAllowed returns
false and leaves the limiter, hence its maxRequests and windowDuration, as it
was before the call and as it was before the sequence. -/
theorem C10_IsAllowed_constant (rl : RateLimiter) (t0 : Int) (ops : List Op)
    (userID : String) :
    ((run ⟨rl, t0⟩ ops).1.rl.IsAllowed userID).2 = false
    ∧ ((run ⟨rl, t0⟩ ops).1.rl.IsAllowed userID).1 = (run ⟨rl, t0⟩ ops).1.rl
    ∧ ((run ⟨rl, t0⟩ ops).1.rl.IsAllowed userID).1.maxRequests = rl.maxRequests
    ∧ ((run ⟨rl, t0⟩ ops).1.rl.IsAllowed userID).1.windowDuration = rl.windowDuration := by
  refine ⟨rfl, rfl, ?_, ?_⟩
  · show (run ⟨rl, t0⟩ ops).1.rl.maxRequests = rl.maxRequests
    rw [run_rl]
  · show (run ⟨rl, t0⟩ ops).1.rl.windowDuration = rl.windowDuration
    rw [run_rl]

end RateLimit
